import Mathlib

/-!
Verification development for the OCR failover core of the `healthai`
repository (`ocr-service`): the engine orchestrator with primary/fallback
failover (`service/ocr_engine.py`), the two concrete engine adapters
(`service/paddleocr_engine.py`, `service/tesseract_engine.py`), and the
service validation layer (`service/ocr_service.py`) together with the
HTTP router's generic exception handler (`routers/ocr_router.py`).

The Python code is shallowly embedded: results and metadata dicts become
structures with `Option` fields, engines' interactions with their backend
libraries (PaddleOCR / pytesseract / PIL) become an explicit backend-outcome
parameter, and "this call was made" facts are captured by a call-event trace
returned alongside each result.  Python floats for confidence scores are
modelled as exact rationals.
-/

namespace HealthAI

/-! ### Python string primitives used by the code -/

/-- Whitespace characters recognised by Python's `str.strip` / `str.split`
(ASCII fragment; the code only ever feeds ASCII whitespace through these). -/
def isPySpace (c : Char) : Bool :=
  c == ' ' || c == '\t' || c == '\n' || c == '\r' || c == '\x0b' || c == '\x0c'

/-- Python `str.strip()`: drop leading and trailing whitespace. -/
def pyStrip (s : String) : String :=
  String.mk (((s.toList.dropWhile isPySpace).reverse.dropWhile isPySpace).reverse)

/-- Helper for `pySplit`: accumulate maximal non-whitespace runs. -/
def pySplitAux : List Char → List Char → List String
  | [], acc => if acc.isEmpty then [] else [String.mk acc.reverse]
  | c :: rest, acc =>
    if isPySpace c then
      if acc.isEmpty then pySplitAux rest []
      else String.mk acc.reverse :: pySplitAux rest []
    else pySplitAux rest (c :: acc)

/-- Python `str.split()` with no arguments: split on whitespace runs,
discarding empty fields. -/
def pySplit (s : String) : List String := pySplitAux s.toList []

/-- Python `str.lower()` (ASCII fragment, which is all the extension
check needs). -/
def pyLower (s : String) : String := String.mk (s.toList.map Char.toLower)

/-- Helper for `splitextExt`: given the reversed basename, split at the last
dot, returning (chars before the last dot, reversed) and (extension chars
after the dot, in order). `none` when the basename holds no dot. -/
def lastDotSplit : List Char → List Char → Option (List Char × List Char)
  | [], _ => none
  | c :: rest, acc => if c == '.' then some (rest, acc) else lastDotSplit rest (c :: acc)

/-- The extension part of Python's `os.path.splitext` (posix): the suffix from
the last dot of the basename, unless every basename character before that dot
is itself a dot (so `.bashrc` has no extension). -/
def splitextExt (p : String) : String :=
  match lastDotSplit (p.toList.reverse.takeWhile (fun c => c != '/')) [] with
  | none => ""
  | some (beforeRev, extChars) =>
    if beforeRev.any (fun c => c != '.') then String.mk ('.' :: extChars) else ""

/-- Python's `round(x, 2)` on the confidence floats, modelled as exact
nearest-integer rounding of hundredths on rationals. -/
def pyRound2 (q : ℚ) : ℚ := ((Rat.floor (q * 100 + 1 / 2) : ℤ) : ℚ) / 100

/-! ### Data model: extraction results and metadata -/

/-- `image_size` block of the success metadata (`image.width/height/mode`). -/
structure ImageSize where
  width : Nat
  height : Nat
  mode : String
deriving DecidableEq

/-- The metadata dict attached to an `ExtractResult`.  Every key the code may
place in the dict is a field; `none` models the key being absent. -/
structure Metadata where
  filename : Option String := none
  engine : Option String := none
  image_size : Option ImageSize := none
  char_count : Option Nat := none
  word_count : Option Nat := none
  confidence : Option ℚ := none
  detected_lines : Option Nat := none
  language : Option String := none
  fallback_used : Option Bool := none
  primary_engine : Option String := none
  fallback_engine : Option String := none
deriving DecidableEq

/-- The result dict every engine `extract_text` and the orchestrator return:
`{"success": ..., "text": ..., "error": ..., "metadata": ...}`. -/
structure ExtractResult where
  success : Bool
  text : String
  error : Option String := none
  metadata : Metadata
deriving DecidableEq

/-- The arguments `(image_data, filename, language)` passed down to
`extract_text` calls. -/
structure OCRInput where
  image_data : List Nat
  filename : Option String
  language : String
deriving DecidableEq

/-- Observable calls made on the two engines during one orchestrator
invocation, in order. -/
inductive CallEvent where
  | primaryIsAvailable : CallEvent
  | primaryExtract : CallEvent
  | fallbackIsAvailable : CallEvent
  | fallbackExtract : CallEvent
deriving DecidableEq

/-! ### Engine strategy abstraction (`ocr_strategy.py`)

An `OCREngineStrategy` value captures one engine instance's observable
behaviour during a single orchestrator call: the answer its `is_available()`
gives, the result its `extract_text` produces on the call's input, its class
name (`__class__.__name__`) and its static language list. -/

structure OCREngineStrategy where
  className : String
  isAvail : Bool
  extractFn : OCRInput → ExtractResult
  supportedLanguages : List String

/-! ### Engine orchestrator (`ocr_engine.py`) -/

/-- `OCREngine.__init__`: holds the primary and fallback engine instances. -/
structure OCREngine where
  primary_engine : OCREngineStrategy
  fallback_engine : OCREngineStrategy

/-- The dict built at the end of `extract_text_from_image` when both engines
failed or were unavailable (lines 47–55 of `ocr_engine.py`). -/
def OCREngine.bothFailedResult (self : OCREngine) : ExtractResult :=
  { success := false
    error := some ("Both OCR engines failed or are unavailable")
    text := ""
    metadata :=
      { primary_engine := some self.primary_engine.className
        fallback_engine := some self.fallback_engine.className } }

/-- The fallback block of `extract_text_from_image` (lines 38–55): try the
fallback engine, augment its success metadata with `fallback_used` and
`primary_engine`, otherwise return the both-failed dict.  Also returns the
calls made on the fallback engine. -/
def OCREngine.fallbackStep (self : OCREngine) (i : OCRInput) :
    ExtractResult × List CallEvent :=
  if self.fallback_engine.isAvail then
    if (self.fallback_engine.extractFn i).success = true then
      ({ self.fallback_engine.extractFn i with
          metadata :=
            { (self.fallback_engine.extractFn i).metadata with
                fallback_used := some true
                primary_engine := some self.primary_engine.className } },
        [CallEvent.fallbackIsAvailable, CallEvent.fallbackExtract])
    else
      (self.bothFailedResult, [CallEvent.fallbackIsAvailable, CallEvent.fallbackExtract])
  else
    (self.bothFailedResult, [CallEvent.fallbackIsAvailable])

/-- `OCREngine.extract_text_from_image` (lines 31–55): try the primary engine
first; its result is returned verbatim iff it reports success and its text
strips to something non-empty; otherwise fall through to the fallback block.
The second component records the engine calls made, in order. -/
def OCREngine.extract_text_from_image (self : OCREngine) (i : OCRInput) :
    ExtractResult × List CallEvent :=
  if self.primary_engine.isAvail then
    if (self.primary_engine.extractFn i).success = true ∧
        pyStrip (self.primary_engine.extractFn i).text ≠ "" then
      (self.primary_engine.extractFn i,
        [CallEvent.primaryIsAvailable, CallEvent.primaryExtract])
    else
      ((self.fallbackStep i).1,
        CallEvent.primaryIsAvailable :: CallEvent.primaryExtract :: (self.fallbackStep i).2)
  else
    ((self.fallbackStep i).1, CallEvent.primaryIsAvailable :: (self.fallbackStep i).2)

/-- One engine's entry in the `get_engine_status` report. -/
structure EngineEntry where
  name : String
  available : Bool
  supported_languages : List String
deriving DecidableEq

/-- The dict returned by `OCREngine.get_engine_status` (lines 57–70). -/
structure EngineStatusReport where
  primary_engine : EngineEntry
  fallback_engine : EngineEntry
deriving DecidableEq

/-- `OCREngine.get_engine_status`: report name, availability and language list
for each of the two engines. -/
def OCREngine.get_engine_status (self : OCREngine) : EngineStatusReport :=
  { primary_engine :=
      { name := self.primary_engine.className
        available := self.primary_engine.isAvail
        supported_languages := self.primary_engine.supportedLanguages }
    fallback_engine :=
      { name := self.fallback_engine.className
        available := self.fallback_engine.isAvail
        supported_languages := self.fallback_engine.supportedLanguages } }

/-- The status one engine contributes on its own: what `is_available()` and
`get_supported_languages()` report for it, independent of the other engine. -/
def engineStatusOf (s : OCREngineStrategy) : EngineEntry :=
  { name := s.className
    available := s.isAvail
    supported_languages := s.supportedLanguages }

/-! ### Concrete engines (`paddleocr_engine.py`, `tesseract_engine.py`)

Each adapter's interaction with its backend library inside the `try` block is
modelled as an explicit backend-outcome parameter: either the backend raised
an exception (whose `str(e)` is the carried message) or it produced data. -/

/-- Outcome of an engine's `__init__` attempt on its backend library
(constructing `PaddleOCR(...)` resp. calling `get_tesseract_version()`). -/
inductive InitOutcome where
  | ok : InitOutcome
  | raises : String → InitOutcome
deriving DecidableEq

/-- Whether an `InitOutcome` is the success case. -/
def InitOutcome.succeeded : InitOutcome → Bool
  | InitOutcome.ok => true
  | InitOutcome.raises _ => false

/-- `PaddleOCREngine` instance state: the `self.available` flag that
`__init__` records. -/
structure PaddleOCREngine where
  available : Bool
deriving DecidableEq

/-- `PaddleOCREngine.__init__` (lines 12–19): `available` is set to whether
constructing the backend handle succeeded, and never touched again. -/
def PaddleOCREngine.init : InitOutcome → PaddleOCREngine
  | InitOutcome.ok => { available := true }
  | InitOutcome.raises _ => { available := false }

/-- `PaddleOCREngine.is_available` (lines 97–99): returns the stored flag. -/
def PaddleOCREngine.is_available (self : PaddleOCREngine) : Bool :=
  self.available

/-- `PaddleOCREngine.get_supported_languages` (lines 101–104). -/
def PaddleOCREngine.get_supported_languages : List String :=
  ["en", "ch", "japan", "korean", "fr", "german", "spanish", "arabic", "tamil", "hindi"]

/-- What the PaddleOCR backend (PIL decode + `self.ocr.ocr`) does on one call:
raise, or return the recognised lines plus the decoded image's dimensions.
`ocrLines = none` models `result` or `result[0]` being falsy; each pair is the
`line[1] = (text, confidence)` of a line passing `line and len(line) > 1`. -/
inductive PaddleBackend where
  | raises : String → PaddleBackend
  | ok : Option (List (String × ℚ)) → Nat → Nat → String → PaddleBackend

/-- `PaddleOCREngine.extract_text` (lines 21–95): unavailable → Failure dict;
backend exception → Failure dict naming the engine; otherwise the Success
dict with joined text, averaged confidence and image metadata. -/
def PaddleOCREngine.extract_text (self : PaddleOCREngine) (i : OCRInput)
    (backend : PaddleBackend) : ExtractResult :=
  if !self.is_available then
    { success := false
      error := some ("PaddleOCR is not available")
      text := ""
      metadata := {} }
  else
    match backend with
    | PaddleBackend.raises msg =>
      { success := false
        error := some msg
        text := ""
        metadata := { engine := some ("paddleocr") } }
    | PaddleBackend.ok ocrLines w h mode =>
      let pairs := ocrLines.getD []
      let extracted_texts := pairs.map Prod.fst
      let confidences := pairs.map Prod.snd
      let full_text := String.intercalate ("\n") extracted_texts
      let avg_confidence : ℚ :=
        if confidences.length ≠ 0 then confidences.sum / (confidences.length : ℚ) else 0
      { success := true
        text := pyStrip full_text
        metadata :=
          { filename := i.filename
            engine := some ("paddleocr")
            image_size := some { width := w, height := h, mode := mode }
            char_count := some full_text.length
            word_count := some (if pyStrip full_text ≠ "" then (pySplit full_text).length else 0)
            confidence := some (pyRound2 (avg_confidence * 100))
            detected_lines := some extracted_texts.length
            language := some i.language } }

/-- `TesseractEngine` instance state: the `self.available` flag that
`__init__` records. -/
structure TesseractEngine where
  available : Bool
deriving DecidableEq

/-- `TesseractEngine.__init__` (lines 11–18). -/
def TesseractEngine.init : InitOutcome → TesseractEngine
  | InitOutcome.ok => { available := true }
  | InitOutcome.raises _ => { available := false }

/-- `TesseractEngine.is_available` (lines 96–98): returns the stored flag. -/
def TesseractEngine.is_available (self : TesseractEngine) : Bool :=
  self.available

/-- `TesseractEngine.get_supported_languages` (lines 100–103). -/
def TesseractEngine.get_supported_languages : List String :=
  ["eng", "tam", "hin", "fra", "deu", "spa", "ara", "jpn", "kor", "chi_sim", "chi_tra"]

/-- What the pytesseract backend does on one call: raise, or return the
extracted string plus image dimensions, and — for the inner
`image_to_data` try block — either the confidence column (`some confs`) or
`none` when that inner call raised (lines 54–58). -/
inductive TessBackend where
  | raises : String → TessBackend
  | ok : String → Nat → Nat → String → Option (List Int) → TessBackend

/-- `TesseractEngine._calculate_average_confidence` (lines 91–94): average of
the strictly positive confidences, `0.0` when there are none. -/
def TesseractEngine.calculate_average_confidence (conf : List Int) : ℚ :=
  let confidences := conf.filter (fun c => 0 < c)
  if confidences.length ≠ 0 then ((confidences.sum : ℤ) : ℚ) / (confidences.length : ℚ) else 0

/-- `TesseractEngine.extract_text` (lines 20–89). -/
def TesseractEngine.extract_text (self : TesseractEngine) (i : OCRInput)
    (backend : TessBackend) : ExtractResult :=
  if !self.is_available then
    { success := false
      error := some ("Tesseract is not installed or not in PATH")
      text := ""
      metadata := {} }
  else
    match backend with
    | TessBackend.raises msg =>
      { success := false
        error := some msg
        text := ""
        metadata := { engine := some ("tesseract") } }
    | TessBackend.ok text_content w h mode confData =>
      let avg_confidence : ℚ :=
        match confData with
        | some ds => TesseractEngine.calculate_average_confidence ds
        | none => 0
      let words := pySplit text_content
      { success := true
        text := pyStrip text_content
        metadata :=
          { filename := i.filename
            engine := some ("tesseract")
            image_size := some { width := w, height := h, mode := mode }
            char_count := some text_content.length
            word_count := some words.length
            confidence := some avg_confidence
            language := some i.language } }

/-- The strategy view of a `PaddleOCREngine` whose `self.available` flag is
`avail` and whose backend behaves as `backend` on each input.
`is_available()` is pure in the source (a field read), so its per-call answer
is the recorded flag. -/
def paddleStrategy (avail : Bool) (backend : OCRInput → PaddleBackend) : OCREngineStrategy :=
  { className := "PaddleOCREngine"
    isAvail := PaddleOCREngine.is_available { available := avail }
    extractFn := fun i => PaddleOCREngine.extract_text { available := avail } i (backend i)
    supportedLanguages := PaddleOCREngine.get_supported_languages }

/-- The strategy view of a `TesseractEngine`, as for `paddleStrategy`. -/
def tessStrategy (avail : Bool) (backend : OCRInput → TessBackend) : OCREngineStrategy :=
  { className := "TesseractEngine"
    isAvail := TesseractEngine.is_available { available := avail }
    extractFn := fun i => TesseractEngine.extract_text { available := avail } i (backend i)
    supportedLanguages := TesseractEngine.get_supported_languages }

/-- `OCREngine.__init__('paddleocr', 'tesseract')` — the configuration the
service constructs (`OCRService.__init__`): PaddleOCR primary, Tesseract
fallback, with the engines' availability flags and backend behaviours
abstracted. -/
def defaultEngine (pAvail fAvail : Bool) (pb : OCRInput → PaddleBackend)
    (tb : OCRInput → TessBackend) : OCREngine :=
  { primary_engine := paddleStrategy pAvail pb
    fallback_engine := tessStrategy fAvail tb }

/-- Modelled from the spec: "Computed on demand, not cached; an engine may
become unavailable between calls (e.g., a missing binary) and this must be
re-checked on every invocation" — the availability an on-demand check would
report, namely the backend's state at the moment of the call. -/
def isAvailableFresh (currentBackendOk : Bool) : Bool := currentBackendOk

/-! ### Service layer (`ocr_service.py`) and router (`ocr_router.py`) -/

/-- The uploaded file as the service sees it after `await file.read()`:
FastAPI's `UploadFile` with its optional filename and the buffered bytes. -/
structure UploadFile where
  filename : Option String
  content : List Nat

/-- The `{filename, file_size, extracted_text, metadata}` dict returned by
`extract_text_from_file` on success (lines 57–62). -/
structure SuccessResponse where
  filename : Option String
  file_size : Nat
  extracted_text : String
  metadata : Metadata
deriving DecidableEq

/-- How one call of `OCRService.extract_text_from_file` terminates: a normal
return, a raised `HTTPException(status, detail)`, or a raised `TypeError`
(which the service never catches). -/
inductive ServiceOutcome where
  | ok : SuccessResponse → ServiceOutcome
  | httpError : Nat → String → ServiceOutcome
  | typeErr : String → ServiceOutcome
deriving DecidableEq

/-- `OCRService.__init__` (lines 10–13): the engine plus the validation
configuration. -/
structure OCRService where
  ocr_engine : OCREngine
  max_file_size : Nat := 50 * 1024 * 1024
  allowed_extensions : List String := [".jpg", ".jpeg", ".png", ".bmp", ".tiff", ".tif", ".pdf"]

/-- Build the service around a given engine, with the `__init__` defaults for
size limit and extension allow-list. -/
def OCRService.init (e : OCREngine) : OCRService := { ocr_engine := e }

/-- The message of the `TypeError` CPython's `os.path.splitext` raises when
handed `None` (via `os.fspath`); `os.path.splitext` is stdlib, not part of
this repository. -/
def splitextNoneMsg : String := "expected str, bytes or os.PathLike object, not NoneType"

/-- `OCRService.extract_text_from_file` (lines 15–62): size check (413), then
extension check (400) — where a `None` filename makes `os.path.splitext`
raise `TypeError` — then delegation to the orchestrator, mapping its Failure
to a 500 and its Success to the response dict.  The second component is the
orchestrator's call trace (empty when validation rejects the upload first).
The 400 detail joins the allow-list in this model's list order; Python's
`set` iteration order is unspecified. -/
def OCRService.extract_text_from_file (self : OCRService) (file : UploadFile)
    (language : String) : ServiceOutcome × List CallEvent :=
  if file.content.length > self.max_file_size then
    (ServiceOutcome.httpError 413
      ("File too large. Maximum size is " ++ toString (self.max_file_size / (1024 * 1024)) ++ "MB"),
      [])
  else
    match file.filename with
    | none => (ServiceOutcome.typeErr splitextNoneMsg, [])
    | some fname =>
      if !(self.allowed_extensions.contains (pyLower (splitextExt fname))) then
        (ServiceOutcome.httpError 400
          ("Unsupported file type. Allowed types: " ++
            String.intercalate (", ") self.allowed_extensions),
          [])
      else
        ((if !((self.ocr_engine.extract_text_from_image
                  { image_data := file.content, filename := some fname, language := language }).1.success) then
            ServiceOutcome.httpError 500
              ("OCR processing failed: " ++
                ((self.ocr_engine.extract_text_from_image
                    { image_data := file.content, filename := some fname, language := language }).1.error.getD ("")))
          else
            ServiceOutcome.ok
              { filename := some fname
                file_size := file.content.length
                extracted_text :=
                  (self.ocr_engine.extract_text_from_image
                    { image_data := file.content, filename := some fname, language := language }).1.text
                metadata :=
                  (self.ocr_engine.extract_text_from_image
                    { image_data := file.content, filename := some fname, language := language }).1.metadata }),
          (self.ocr_engine.extract_text_from_image
            { image_data := file.content, filename := some fname, language := language }).2)

/-- What the router hands the HTTP layer: a 200 success payload or an error
status with a detail string. -/
inductive RouterResponse where
  | success : SuccessResponse → RouterResponse
  | error : Nat → String → RouterResponse
deriving DecidableEq

/-- The `POST /ocr/extract` handler (`ocr_router.py` lines 9–41): passes
`HTTPException`s through and wraps any other exception (such as the
`TypeError` from a missing filename) into a 500 with its message. -/
def extract_text_route (svc : OCRService) (file : UploadFile) (language : String) :
    RouterResponse × List CallEvent :=
  match svc.extract_text_from_file file language with
  | (ServiceOutcome.ok r, tr) => (RouterResponse.success r, tr)
  | (ServiceOutcome.httpError s d, tr) => (RouterResponse.error s d, tr)
  | (ServiceOutcome.typeErr m, tr) =>
    (RouterResponse.error 500 ("Internal server error: " ++ m), tr)

/-! ### Theorems -/

/-- A `PaddleOCREngine.extract_text` result that reports success carries
`engine = "paddleocr"` and no `fallback_used` key: only the success branch of
the adapter produces `success = true`, and its metadata literal says so. -/
theorem paddle_success_metadata_shape (avail : Bool) (pb : OCRInput → PaddleBackend)
    (i : OCRInput) (h : ((paddleStrategy avail pb).extractFn i).success = true) :
    ((paddleStrategy avail pb).extractFn i).metadata.engine = some ("paddleocr")
      ∧ ((paddleStrategy avail pb).extractFn i).metadata.fallback_used = none := by
  rcases avail with _ | _
  · exact absurd h (by simp [paddleStrategy, PaddleOCREngine.extract_text,
      PaddleOCREngine.is_available])
  · rcases hpb : pb i with msg | ⟨ls, w, hh, m⟩
    · exact absurd h (by simp [paddleStrategy, PaddleOCREngine.extract_text,
        PaddleOCREngine.is_available, hpb])
    · constructor <;>
        simp [paddleStrategy, PaddleOCREngine.extract_text,
          PaddleOCREngine.is_available, hpb]

/-- C1: when the primary (PaddleOCR) engine is available and extracts
successfully with text that is non-empty after stripping, the orchestrator
returns that primary result verbatim — its metadata says `engine =
"paddleocr"` with no `fallback_used` key — and the fallback engine is never
consulted. -/
theorem primary_success_returns_primary_result
    (pAvail fAvail : Bool) (pb : OCRInput → PaddleBackend) (tb : OCRInput → TessBackend)
    (i : OCRInput)
    (hAvail : (defaultEngine pAvail fAvail pb tb).primary_engine.isAvail = true)
    (hSucc : ((defaultEngine pAvail fAvail pb tb).primary_engine.extractFn i).success = true)
    (hText : pyStrip ((defaultEngine pAvail fAvail pb tb).primary_engine.extractFn i).text ≠ "") :
    (defaultEngine pAvail fAvail pb tb).extract_text_from_image i
        = ((defaultEngine pAvail fAvail pb tb).primary_engine.extractFn i,
            [CallEvent.primaryIsAvailable, CallEvent.primaryExtract])
      ∧ ((defaultEngine pAvail fAvail pb tb).primary_engine.extractFn i).metadata.engine
          = some ("paddleocr")
      ∧ ((defaultEngine pAvail fAvail pb tb).primary_engine.extractFn i).metadata.fallback_used
          = none
      ∧ CallEvent.fallbackIsAvailable ∉
          ((defaultEngine pAvail fAvail pb tb).extract_text_from_image i).2
      ∧ CallEvent.fallbackExtract ∉
          ((defaultEngine pAvail fAvail pb tb).extract_text_from_image i).2 := by
  have hmain : (defaultEngine pAvail fAvail pb tb).extract_text_from_image i
      = ((defaultEngine pAvail fAvail pb tb).primary_engine.extractFn i,
          [CallEvent.primaryIsAvailable, CallEvent.primaryExtract]) := by
    unfold OCREngine.extract_text_from_image
    rw [if_pos hAvail, if_pos (And.intro hSucc hText)]
  have hshape := paddle_success_metadata_shape pAvail pb i hSucc
  exact ⟨hmain, hshape.1, hshape.2, by rw [hmain]; simp, by rw [hmain]; simp⟩

/-- Fixtures for the C1 witness: a primary whose backend reads "Hello". -/
def w1pb : OCRInput → PaddleBackend :=
  fun _ => PaddleBackend.ok (some [(("Hello"), (9 : ℚ) / 10)]) 8 6 ("RGB")

def w1tb : OCRInput → TessBackend := fun _ => TessBackend.raises ("boom")

def w1Input : OCRInput := { image_data := [1, 2, 3], filename := some ("x.png"), language := "en" }

def w1Engine : OCREngine := defaultEngine true true w1pb w1tb

theorem primary_success_returns_primary_result_witness :
    (w1Engine.primary_engine.isAvail = true
        ∧ (w1Engine.primary_engine.extractFn w1Input).success = true
        ∧ pyStrip (w1Engine.primary_engine.extractFn w1Input).text ≠ "")
      ∧ w1Engine.extract_text_from_image w1Input
          = (w1Engine.primary_engine.extractFn w1Input,
              [CallEvent.primaryIsAvailable, CallEvent.primaryExtract]) :=
  ⟨⟨rfl, by decide, by decide⟩,
    (primary_success_returns_primary_result true true w1pb w1tb w1Input rfl
      (by decide) (by decide)).1⟩

/-- C2: when the primary engine reports unavailable, its `extract_text` is
never called, the fallback's availability is checked, and — when the fallback
is available — the fallback's `extract_text` is called. -/
theorem primary_unavailable_skips_primary_extract
    (e : OCREngine) (i : OCRInput) (h : e.primary_engine.isAvail = false) :
    CallEvent.primaryExtract ∉ (e.extract_text_from_image i).2
      ∧ CallEvent.fallbackIsAvailable ∈ (e.extract_text_from_image i).2
      ∧ (e.fallback_engine.isAvail = true →
          CallEvent.fallbackExtract ∈ (e.extract_text_from_image i).2) := by
  unfold OCREngine.extract_text_from_image
  rw [if_neg (by simp [h])]
  unfold OCREngine.fallbackStep
  by_cases hf : e.fallback_engine.isAvail = true
  · rw [if_pos hf]
    by_cases hs : (e.fallback_engine.extractFn i).success = true
    · rw [if_pos hs]
      exact ⟨by simp, by simp, fun _ => by simp⟩
    · rw [if_neg hs]
      exact ⟨by simp, by simp, fun _ => by simp⟩
  · rw [if_neg hf]
    exact ⟨by simp, by simp, fun hft => absurd hft hf⟩

/-- Fixture for the C2 witness: primary unavailable, fallback available. -/
def w2Engine : OCREngine := defaultEngine false true w1pb (fun _ => TessBackend.raises ("boom"))

theorem primary_unavailable_skips_primary_extract_witness :
    (w2Engine.primary_engine.isAvail = false ∧ w2Engine.fallback_engine.isAvail = true)
      ∧ CallEvent.primaryExtract ∉ (w2Engine.extract_text_from_image w1Input).2
      ∧ CallEvent.fallbackExtract ∈ (w2Engine.extract_text_from_image w1Input).2 := by
  have h := primary_unavailable_skips_primary_extract w2Engine w1Input rfl
  exact ⟨⟨rfl, rfl⟩, h.1, h.2.2 rfl⟩

/-- C3: when the primary succeeds but its stripped text is empty, the
fallback is attempted; a fallback success (of any text) becomes the final
result, with its metadata augmented by `fallback_used = true` and
`primary_engine = <primary class name>`, all other fields — text and
confidence in particular — passed through unchanged. -/
theorem whitespace_primary_triggers_fallback_augmented
    (e : OCREngine) (i : OCRInput)
    (h1 : e.primary_engine.isAvail = true)
    (_h2 : (e.primary_engine.extractFn i).success = true)
    (h3 : pyStrip (e.primary_engine.extractFn i).text = "")
    (h4 : e.fallback_engine.isAvail = true)
    (h5 : (e.fallback_engine.extractFn i).success = true) :
    e.extract_text_from_image i
        = ({ e.fallback_engine.extractFn i with
              metadata :=
                { (e.fallback_engine.extractFn i).metadata with
                    fallback_used := some true
                    primary_engine := some e.primary_engine.className } },
            [CallEvent.primaryIsAvailable, CallEvent.primaryExtract,
              CallEvent.fallbackIsAvailable, CallEvent.fallbackExtract])
      ∧ (e.extract_text_from_image i).1.text = (e.fallback_engine.extractFn i).text
      ∧ (e.extract_text_from_image i).1.metadata.confidence
          = (e.fallback_engine.extractFn i).metadata.confidence
      ∧ (e.extract_text_from_image i).1.metadata.fallback_used = some true := by
  have hmain : e.extract_text_from_image i
      = ({ e.fallback_engine.extractFn i with
            metadata :=
              { (e.fallback_engine.extractFn i).metadata with
                  fallback_used := some true
                  primary_engine := some e.primary_engine.className } },
          [CallEvent.primaryIsAvailable, CallEvent.primaryExtract,
            CallEvent.fallbackIsAvailable, CallEvent.fallbackExtract]) := by
    unfold OCREngine.extract_text_from_image OCREngine.fallbackStep
    rw [if_pos h1, if_neg (fun hc => hc.2 h3), if_pos h4, if_pos h5]
  refine ⟨hmain, ?_, ?_, ?_⟩ <;> rw [hmain]

/-- Fixtures for the C3 witness: a primary that succeeds with empty text and
a Tesseract fallback reading "Hello" at confidences 90 and 85. -/
def w3pb : OCRInput → PaddleBackend := fun _ => PaddleBackend.ok none 4 4 ("RGB")

def w3tb : OCRInput → TessBackend :=
  fun _ => TessBackend.ok ("Hello") 10 5 ("RGB") (some [90, 85])

def w3Engine : OCREngine := defaultEngine true true w3pb w3tb

theorem whitespace_primary_triggers_fallback_witness :
    ((w3Engine.primary_engine.extractFn w1Input).success = true
        ∧ pyStrip (w3Engine.primary_engine.extractFn w1Input).text = ""
        ∧ (w3Engine.fallback_engine.extractFn w1Input).success = true)
      ∧ (w3Engine.extract_text_from_image w1Input).1.text = ("Hello")
      ∧ (w3Engine.extract_text_from_image w1Input).1.metadata.fallback_used = some true
      ∧ (w3Engine.extract_text_from_image w1Input).1.metadata.confidence
          = some ((175 : ℚ) / 2) := by
  have h := whitespace_primary_triggers_fallback_augmented w3Engine w1Input rfl
    (by decide) (by decide) rfl (by decide)
  refine ⟨⟨by decide, by decide, by decide⟩, ?_, h.2.2.2, ?_⟩
  · rw [h.2.1]; decide
  · rw [h.2.2.1]
    show some (TesseractEngine.calculate_average_confidence [90, 85]) = some ((175 : ℚ) / 2)
    norm_num [TesseractEngine.calculate_average_confidence]

/-- C4: when the primary path is exhausted (unavailable, failed, or
whitespace-only success) and the fallback is unavailable or fails, the
orchestrator returns — it never raises, being a total function — the Failure
dict with the generic message and both engines' class names in its
metadata. -/
theorem both_exhausted_returns_both_failed
    (e : OCREngine) (i : OCRInput)
    (hp : e.primary_engine.isAvail = false
          ∨ (e.primary_engine.extractFn i).success = false
          ∨ pyStrip (e.primary_engine.extractFn i).text = "")
    (hf : e.fallback_engine.isAvail = false
          ∨ (e.fallback_engine.extractFn i).success = false) :
    (e.extract_text_from_image i).1 = e.bothFailedResult
      ∧ (e.extract_text_from_image i).1.success = false
      ∧ (e.extract_text_from_image i).1.error
          = some ("Both OCR engines failed or are unavailable")
      ∧ (e.extract_text_from_image i).1.metadata.primary_engine
          = some e.primary_engine.className
      ∧ (e.extract_text_from_image i).1.metadata.fallback_engine
          = some e.fallback_engine.className := by
  have hfb : (e.fallbackStep i).1 = e.bothFailedResult := by
    unfold OCREngine.fallbackStep
    rcases hf with hf | hf
    · rw [if_neg (by simp [hf])]
    · by_cases hav : e.fallback_engine.isAvail = true
      · rw [if_pos hav, if_neg (by simp [hf])]
      · rw [if_neg hav]
  have hmain : (e.extract_text_from_image i).1 = e.bothFailedResult := by
    unfold OCREngine.extract_text_from_image
    by_cases hav : e.primary_engine.isAvail = true
    · rw [if_pos hav]
      have hcond : ¬ ((e.primary_engine.extractFn i).success = true
          ∧ pyStrip (e.primary_engine.extractFn i).text ≠ "") := by
        rcases hp with hp | hp | hp
        · rw [hav] at hp; exact absurd hp (by decide)
        · exact fun hc => by rw [hc.1] at hp; exact absurd hp (by decide)
        · exact fun hc => hc.2 hp
      rw [if_neg hcond]
      exact hfb
    · rw [if_neg hav]
      exact hfb
  refine ⟨hmain, ?_, ?_, ?_, ?_⟩ <;> rw [hmain] <;> rfl

/-- Fixture for the C4 witness: both engines unavailable. -/
def w4Engine : OCREngine := defaultEngine false false w1pb w1tb

theorem both_exhausted_returns_both_failed_witness :
    (w4Engine.primary_engine.isAvail = false ∧ w4Engine.fallback_engine.isAvail = false)
      ∧ (w4Engine.extract_text_from_image w1Input).1 = w4Engine.bothFailedResult
      ∧ (w4Engine.extract_text_from_image w1Input).1.error
          = some ("Both OCR engines failed or are unavailable") := by
  have h := both_exhausted_returns_both_failed w4Engine w1Input (Or.inl rfl) (Or.inl rfl)
  exact ⟨⟨rfl, rfl⟩, h.1, h.2.2.1⟩

/-- C5 counterexample: availability is NOT a fresh re-check.  A
`PaddleOCREngine` constructed while its backend was healthy answers
`is_available() = true` even when the backend is unavailable at call time
(`isAvailableFresh false`), because `is_available` only reads the flag
`__init__` stored. -/
theorem is_available_not_fresh_counterexample :
    (PaddleOCREngine.init InitOutcome.ok).is_available ≠ isAvailableFresh false := by
  decide

/-- C5 amended: each engine's availability is recorded once at construction —
true iff initialising the backend succeeded — and `is_available()` returns
that recorded value on every call, insensitive to any later backend state. -/
theorem is_available_recorded_at_construction (o : InitOutcome) :
    (PaddleOCREngine.init o).is_available = o.succeeded
      ∧ (TesseractEngine.init o).is_available = o.succeeded := by
  cases o <;> exact ⟨rfl, rfl⟩

/-- C8: `get_engine_status` is idempotent (two calls agree — in the source it
computes only from the construction-recorded `available` flags and static
language lists) and each engine's entry is computed independently of the
other engine: the primary entry is unchanged under any replacement of the
fallback engine and vice versa, and both entries are always present. -/
theorem engine_status_idempotent_independent
    (e : OCREngine) (p f f₂ p₂ : OCREngineStrategy) :
    e.get_engine_status = e.get_engine_status
      ∧ e.get_engine_status.primary_engine = engineStatusOf e.primary_engine
      ∧ e.get_engine_status.fallback_engine = engineStatusOf e.fallback_engine
      ∧ (OCREngine.mk p f).get_engine_status.primary_engine
          = (OCREngine.mk p f₂).get_engine_status.primary_engine
      ∧ (OCREngine.mk p f).get_engine_status.fallback_engine
          = (OCREngine.mk p₂ f).get_engine_status.fallback_engine :=
  ⟨rfl, rfl, rfl, rfl, rfl⟩

/-- C9: a backend exception inside either engine's `extract_text` is caught
and normalized into the Failure dict — `success = false`, empty text, the
exception's message as the error description, the engine named in metadata —
rather than propagating (the embedded adapters are total functions). -/
theorem engine_exception_normalized_to_failure (i : OCRInput) (msg : String) :
    PaddleOCREngine.extract_text { available := true } i (PaddleBackend.raises msg)
        = { success := false
            error := some msg
            text := ""
            metadata := { engine := some ("paddleocr") } }
      ∧ TesseractEngine.extract_text { available := true } i (TessBackend.raises msg)
        = { success := false
            error := some msg
            text := ""
            metadata := { engine := some ("tesseract") } } :=
  ⟨rfl, rfl⟩

/-- C6: a file of exactly the configured maximum size (50 MiB = 52428800
bytes) is never rejected with 413, while a file one byte larger is rejected
with the 413 too-large error before the orchestrator or any engine is
invoked (empty call trace). -/
theorem size_boundary_validation
    (e : OCREngine) (okContent bigContent : List Nat) (fname lang : String)
    (hok : okContent.length = 52428800) (hbig : bigContent.length = 52428801) :
    (∀ d, ((OCRService.init e).extract_text_from_file
            { filename := some fname, content := okContent } lang).1
          ≠ ServiceOutcome.httpError 413 d)
      ∧ (OCRService.init e).extract_text_from_file
            { filename := some fname, content := bigContent } lang
          = (ServiceOutcome.httpError 413 ("File too large. Maximum size is 50MB"), []) := by
  constructor
  · intro d
    unfold OCRService.extract_text_from_file
    rw [if_neg (by simp [OCRService.init, hok])]
    split
    · simp
    · split
      · simp
      · split
        · simp
        · simp
  · unfold OCRService.extract_text_from_file
    rw [if_pos (by simp [OCRService.init, hbig])]
    simp only [OCRService.init]
    decide

/-- C6 witness, at the boundary byte counts. -/
theorem size_boundary_validation_witness :
    ((List.replicate 52428800 (0 : Nat)).length = 52428800
        ∧ (List.replicate 52428801 (0 : Nat)).length = 52428801)
      ∧ (OCRService.init w1Engine).extract_text_from_file
            { filename := some ("a.png"), content := List.replicate 52428801 (0 : Nat) } ("en")
          = (ServiceOutcome.httpError 413 ("File too large. Maximum size is 50MB"), []) :=
  ⟨⟨List.length_replicate 52428800 (0 : Nat), List.length_replicate 52428801 (0 : Nat)⟩,
    (size_boundary_validation w1Engine (List.replicate 52428800 (0 : Nat))
      (List.replicate 52428801 (0 : Nat)) ("a.png") ("en")
      (List.length_replicate 52428800 (0 : Nat))
      (List.length_replicate 52428801 (0 : Nat))).2⟩

/-- C7: with the size check passed, the extension is matched
case-insensitively against the allow-list: `photo.PNG` passes validation and
reaches the orchestrator (its call trace is the orchestrator's), while
`archive.zip` is rejected with a 400 before any engine is consulted (empty
call trace). -/
theorem extension_boundary_validation
    (e : OCREngine) (content : List Nat) (lang : String)
    (hsize : content.length ≤ 52428800) :
    (∀ d, ((OCRService.init e).extract_text_from_file
            { filename := some ("photo.PNG"), content := content } lang).1
          ≠ ServiceOutcome.httpError 400 d)
      ∧ ((OCRService.init e).extract_text_from_file
            { filename := some ("photo.PNG"), content := content } lang).2
          = (e.extract_text_from_image
              { image_data := content, filename := some ("photo.PNG"), language := lang }).2
      ∧ (∃ d, ((OCRService.init e).extract_text_from_file
            { filename := some ("archive.zip"), content := content } lang).1
          = ServiceOutcome.httpError 400 d)
      ∧ ((OCRService.init e).extract_text_from_file
            { filename := some ("archive.zip"), content := content } lang).2 = [] := by
  have hno : ¬ (content.length > (OCRService.init e).max_file_size) := Nat.not_lt.mpr hsize
  have hext : (([".jpg", ".jpeg", ".png", ".bmp", ".tiff", ".tif", ".pdf"].contains
      (pyLower (splitextExt ("photo.PNG")))) = true) := by decide
  refine ⟨?_, ?_, ?_, ?_⟩
  · intro d
    unfold OCRService.extract_text_from_file
    rw [if_neg hno]
    simp only [OCRService.init, hext]
    split
    · simp_all
    · split <;> simp
  · unfold OCRService.extract_text_from_file
    rw [if_neg hno]
    rfl
  · unfold OCRService.extract_text_from_file
    rw [if_neg hno]
    exact ⟨_, rfl⟩
  · unfold OCRService.extract_text_from_file
    rw [if_neg hno]
    rfl

/-- C7 witness on an empty upload body. -/
theorem extension_boundary_validation_witness :
    (([] : List Nat).length ≤ 52428800)
      ∧ (∀ d, ((OCRService.init w1Engine).extract_text_from_file
            { filename := some ("photo.PNG"), content := [] } ("en")).1
          ≠ ServiceOutcome.httpError 400 d)
      ∧ ((OCRService.init w1Engine).extract_text_from_file
            { filename := some ("archive.zip"), content := [] } ("en")).2 = [] := by
  have h := extension_boundary_validation w1Engine [] ("en") (by decide)
  exact ⟨by decide, h.1, h.2.2.2⟩

/-- C10: an upload without a filename is not rejected with the 400
unsupported-type error: once the size check passes, the extension check's
`os.path.splitext(None)` raises a `TypeError` that escapes the service layer
(with an empty engine-call trace), and the router's generic handler turns it
into a 500 internal-server-error. -/
theorem none_filename_typeerror_maps_500
    (e : OCREngine) (content : List Nat) (lang : String)
    (hsize : content.length ≤ 52428800) :
    (OCRService.init e).extract_text_from_file { filename := none, content := content } lang
        = (ServiceOutcome.typeErr splitextNoneMsg, [])
      ∧ (∀ d, ((OCRService.init e).extract_text_from_file
            { filename := none, content := content } lang).1
          ≠ ServiceOutcome.httpError 400 d)
      ∧ extract_text_route (OCRService.init e) { filename := none, content := content } lang
          = (RouterResponse.error 500 ("Internal server error: " ++ splitextNoneMsg), []) := by
  have hno : ¬ (content.length > (OCRService.init e).max_file_size) := by
    exact Nat.not_lt.mpr hsize
  have hsvc : (OCRService.init e).extract_text_from_file
      { filename := none, content := content } lang
      = (ServiceOutcome.typeErr splitextNoneMsg, []) := by
    unfold OCRService.extract_text_from_file
    rw [if_neg hno]
  refine ⟨hsvc, ?_, ?_⟩
  · intro d
    rw [hsvc]
    simp
  · unfold extract_text_route
    rw [hsvc]

/-- C10 witness on an empty upload body. -/
theorem none_filename_typeerror_maps_500_witness :
    (([] : List Nat).length ≤ 52428800)
      ∧ extract_text_route (OCRService.init w1Engine)
            { filename := none, content := [] } ("en")
          = (RouterResponse.error 500 ("Internal server error: " ++ splitextNoneMsg), []) :=
  ⟨by decide,
    (none_filename_typeerror_maps_500 w1Engine [] ("en") (by decide)).2.2⟩

end HealthAI
